import Mathlib

/-!
Verification development for the recurring-schedule engine of the
seo-blog-convert-ai-platform repository (`app/models/scheduling.py`).

The embedding models Python `datetime` values at minute granularity (no
claim under scrutiny involves sub-minute quantities): a `DT` is a civil
calendar timestamp (year, month, day, hour, minute).  Ordering and
timedelta arithmetic go through the standard civil-day number (the
days-from-civil / civil-from-days algorithms), matching Python's proleptic
Gregorian `datetime` ordering and `timedelta` addition for valid dates.

`ScheduledItem` and its operations (`__init__`, `save`, `update`, `cancel`,
`mark_completed`, `mark_failed`, `execute`, `retry`, `can_retry`,
`get_due_items`) are transcribed from the source.  The implicit database
session is dropped (commits have no bearing on the field-level claims);
`datetime.now()` becomes an explicit `now` argument; raising `ValueError`
becomes `Except String`.  The enum-from-string conversion accepted at the
Python boundary is not modelled: the operations take the enum values
directly, which is the path every claim exercises.
-/

/-- Did-the-year-leap, the standard Gregorian rule (as written inline in
`mark_completed`: `year % 4 == 0 and (year % 100 != 0 or year % 400 == 0)`). -/
def isLeapYear (y : Int) : Bool :=
  y % 4 == 0 && (y % 100 != 0 || y % 400 == 0)

/-- Number of days in month `m` of year `y` (Python's calendar, used by
`datetime.replace` to decide validity of a day-of-month). -/
def daysInMonth (y m : Int) : Int :=
  if m == 2 then (if isLeapYear y then 29 else 28)
  else if m == 4 || m == 6 || m == 9 || m == 11 then 30
  else 31

/-- Civil day number of y-m-d (days since 1970-01-01, Gregorian), the
standard days-from-civil algorithm. -/
def daysFromCivil (y m d : Int) : Int :=
  let y' := if m ≤ 2 then y - 1 else y
  let era := (if 0 ≤ y' then y' else y' - 399).ediv 400
  let yoe := y' - era * 400
  let mp  := if 2 < m then m - 3 else m + 9
  let doy := (153 * mp + 2).ediv 5 + d - 1
  let doe := yoe * 365 + yoe.ediv 4 - yoe.ediv 100 + doy
  era * 146097 + doe - 719468

/-- Inverse of `daysFromCivil`: (year, month, day) of a civil day number. -/
def civilFromDays (z : Int) : Int × Int × Int :=
  let z' := z + 719468
  let era := (if 0 ≤ z' then z' else z' - 146096).ediv 146097
  let doe := z' - era * 146097
  let yoe := (doe - doe.ediv 1460 + doe.ediv 36524 - doe.ediv 146096).ediv 365
  let y := yoe + era * 400
  let doy := doe - (365 * yoe + yoe.ediv 4 - yoe.ediv 100)
  let mp := (5 * doy + 2).ediv 153
  let d := doy - (153 * mp + 2).ediv 5 + 1
  let m := if mp < 10 then mp + 3 else mp - 9
  (if m ≤ 2 then y + 1 else y, m, d)

/-- A Python `datetime` at minute granularity. -/
structure DT where
  year : Int
  month : Int
  day : Int
  hour : Int
  minute : Int
deriving DecidableEq, Repr

/-- Total minutes since the epoch; gives the ordering and timedelta base. -/
def DT.toMin (t : DT) : Int :=
  daysFromCivil t.year t.month t.day * 1440 + t.hour * 60 + t.minute

/-- Rebuild a `DT` from a minute count (used for timedelta addition). -/
def DT.ofMin (n : Int) : DT :=
  let d := n.ediv 1440
  let r := n.emod 1440
  let c := civilFromDays d
  ⟨c.1, c.2.1, c.2.2, r.ediv 60, r.emod 60⟩

/-- `t + timedelta(minutes=k)`. -/
def DT.addMinutes (t : DT) (k : Int) : DT := DT.ofMin (t.toMin + k)

/-- `t + timedelta(days=k)`. -/
def DT.addDays (t : DT) (k : Int) : DT := DT.ofMin (t.toMin + k * 1440)

/-- `a <= b` on datetimes. -/
def DT.le (a b : DT) : Bool := a.toMin ≤ b.toMin

/-- `a < b` on datetimes. -/
def DT.lt (a b : DT) : Bool := a.toMin < b.toMin

/-- `(b - a).days` of a Python timedelta: floor of the difference in whole
days (timedelta normalises with `0 <= seconds < 86400`). -/
def DT.diffDays (b a : DT) : Int := (b.toMin - a.toMin).ediv 1440

/-- `ScheduleStatus` enum from the source. -/
inductive ScheduleStatus where
  | PENDING
  | COMPLETED
  | FAILED
  | CANCELLED
deriving DecidableEq, Repr

/-- `ScheduleFrequency` enum from the source. -/
inductive ScheduleFrequency where
  | ONCE
  | DAILY
  | WEEKLY
  | MONTHLY
deriving DecidableEq, Repr

open ScheduleStatus ScheduleFrequency

/-- The `ScheduledItem` record: the columns of the model that the
lifecycle logic reads or writes.  `schedule_metadata` is modelled by its
only structured key, the append-only `errors` list of (time, message)
entries; `created_at` and the ORM relationships are omitted (no operation
reads them). -/
structure ScheduledItem where
  id : String
  scheduled_time : DT
  frequency : ScheduleFrequency
  status : ScheduleStatus
  last_executed_at : Option DT
  next_execution : Option DT
  execution_count : Nat
  max_executions : Option Nat
  last_error : Option String
  retry_count : Nat
  max_retries : Nat
  errors : List (DT × String)
  blog_post_id : Option String
  social_post_id : Option String
deriving DecidableEq, Repr

namespace ScheduledItem

/-- `ScheduledItem.__init__`.  Raising `ValueError` is modelled as
`Except.error`; `id` is passed in (a UUID in the source); counters start
at the column defaults (`execution_count=0`, `retry_count=0`).  A supplied
reference is a `some` (Python's truthiness on the id strings coincides
with presence for the non-empty UUIDs the system uses). -/
def init (sid : String) (scheduled_time : DT)
    (blog_post_id social_post_id : Option String)
    (frequency : ScheduleFrequency) (status : ScheduleStatus)
    (max_executions : Option Nat) (max_retries : Nat) :
    Except String ScheduledItem :=
  if blog_post_id = none ∧ social_post_id = none then
    .error "Either blog_post_id or social_post_id must be provided"
  else if blog_post_id ≠ none ∧ social_post_id ≠ none then
    .error "Cannot schedule both a blog post and a social post with the same schedule"
  else
    .ok { id := sid
          scheduled_time := scheduled_time
          blog_post_id := blog_post_id
          social_post_id := social_post_id
          next_execution := some scheduled_time
          frequency := frequency
          status := status
          last_executed_at := none
          execution_count := 0
          max_executions := max_executions
          last_error := none
          retry_count := 0
          max_retries := max_retries
          errors := [] }

/-- `ScheduledItem.save` with `validate_references=False` (the foreign-key
existence checks consult the external content models, out of scope): the
schedule-time validation followed by the persist.  The persisted item is
the returned one; on error nothing is persisted. -/
def save (it : ScheduledItem) (now : DT) : Except String ScheduledItem :=
  if it.scheduled_time.le now then
    .error "Scheduled time must be in the future"
  else
    .ok it

/-- Construction as callers perform it: `__init__` followed by `save`.
An item exists in the store only if both steps succeed. -/
def create (sid : String) (scheduled_time : DT)
    (blog_post_id social_post_id : Option String)
    (frequency : ScheduleFrequency) (status : ScheduleStatus)
    (max_executions : Option Nat) (max_retries : Nat) (now : DT) :
    Except String ScheduledItem :=
  match init sid scheduled_time blog_post_id social_post_id frequency status
      max_executions max_retries with
  | .error e => .error e
  | .ok it => it.save now

end ScheduledItem

/-- The keyword arguments `ScheduledItem.update(**kwargs)` recognises that
bear on the claims.  `none` means the keyword was not passed; for the
nullable columns the payload is itself an `Option`.  The source applies
`frequency`, `status`, `scheduled_time` specially and in that order, then
assigns the remaining keywords with `setattr` in the caller's keyword
order; those remaining assignments touch pairwise distinct fields, so the
model fixes an arbitrary order for them. -/
structure UpdateArgs where
  frequency : Option ScheduleFrequency := none
  status : Option ScheduleStatus := none
  scheduled_time : Option DT := none
  next_execution : Option (Option DT) := none
  blog_post_id : Option (Option String) := none
  social_post_id : Option (Option String) := none
  retry_count : Option Nat := none
  max_retries : Option Nat := none
  max_executions : Option (Option Nat) := none
deriving Repr

namespace ScheduledItem

/-- `ScheduledItem.update(**kwargs)` (enum-valued `frequency`/`status`
arguments, so the string-parse branches cannot raise). -/
def update (it : ScheduledItem) (a : UpdateArgs) : ScheduledItem :=
  let it := match a.frequency with
    | some f => { it with frequency := f }
    | none => it
  let it := match a.status with
    | some s => { it with status := s }
    | none => it
  let it := match a.scheduled_time with
    | some t =>
        let it := { it with scheduled_time := t }
        if it.status = PENDING then { it with next_execution := some t } else it
    | none => it
  let it := match a.next_execution with
    | some v => { it with next_execution := v }
    | none => it
  let it := match a.blog_post_id with
    | some v => { it with blog_post_id := v }
    | none => it
  let it := match a.social_post_id with
    | some v => { it with social_post_id := v }
    | none => it
  let it := match a.retry_count with
    | some v => { it with retry_count := v }
    | none => it
  let it := match a.max_retries with
    | some v => { it with max_retries := v }
    | none => it
  match a.max_executions with
  | some v => { it with max_executions := v }
  | none => it

/-- `ScheduledItem.cancel`. -/
def cancel (it : ScheduledItem) : ScheduledItem :=
  { it with status := CANCELLED, next_execution := none }

end ScheduledItem

/-- `self.scheduled_time.replace(year=y, month=m)` in `mark_completed`:
keep the anchor's day; when that day does not exist in the target month
(Python raises `ValueError`), fall to the last valid day computed by the
source's inline leap-year arithmetic. -/
def monthCandidate (st : DT) (y m : Int) : DT :=
  if st.day ≤ daysInMonth y m then
    { st with year := y, month := m }
  else
    let last_day : Int :=
      if m == 2 then
        (if y % 4 == 0 && (y % 100 != 0 || y % 400 == 0) then 29 else 28)
      else if m == 4 || m == 6 || m == 9 || m == 11 then 30
      else 31
    { st with year := y, month := m, day := last_day }

/-- The `while True` catch-up loop of the MONTHLY branch: starting from
`additional_months = k`, advance month by month (reapplying the clamp)
until the candidate is strictly after `now`.  The source loop terminates
because monthly candidates grow without bound; the model carries explicit
fuel and, when exhausted, returns the current candidate (never reached at
the fuel chosen by the caller). -/
def monthlyCatchup (st now : DT) (ny nm : Int) : Nat → Int → DT
  | 0, k =>
      let fm := nm + k
      let fy := ny + (fm - 1).ediv 12
      let fm := (fm - 1).emod 12 + 1
      monthCandidate st fy fm
  | fuel + 1, k =>
      let fm := nm + k
      let fy := ny + (fm - 1).ediv 12
      let fm := (fm - 1).emod 12 + 1
      let future_date := monthCandidate st fy fm
      if now.lt future_date then future_date
      else monthlyCatchup st now ny nm fuel (k + 1)

/-- Fuel for `monthlyCatchup`: months between anchor and `now` plus slack,
an overapproximation of the iterations the source loop performs. -/
def catchupFuel (st now : DT) : Nat :=
  ((now.toMin - st.toMin).ediv (28 * 1440)).toNat + 24

/-- The next-execution computation of `mark_completed` for a recurring
item, with `ec` the already-incremented `execution_count`.  The `ONCE`
arm is unreachable (the caller guards on `frequency != ONCE`) and returns
the anchor. -/
def computeNext (st : DT) (freq : ScheduleFrequency) (ec : Nat) (now : DT) : DT :=
  match freq with
  | .ONCE => st
  | .DAILY =>
      let c := st.addDays ec
      if c.le now then st.addDays (DT.diffDays now st + 1) else c
  | .WEEKLY =>
      let c := st.addDays (7 * ec)
      if c.le now then st.addDays (7 * ((DT.diffDays now st).ediv 7 + 1)) else c
  | .MONTHLY =>
      let nm0 := st.month + (ec : Int)
      let ny := st.year + (nm0 - 1).ediv 12
      let nm := (nm0 - 1).emod 12 + 1
      let c := monthCandidate st ny nm
      if c.le now then monthlyCatchup st now ny nm (catchupFuel st now) 1 else c

namespace ScheduledItem

/-- Guard of the recurring branch of `mark_completed`, evaluated after
the `execution_count` increment: `frequency != ONCE and (max_executions
is None or execution_count < max_executions)`. -/
def shouldRecur (it : ScheduledItem) : Bool :=
  it.frequency != ScheduleFrequency.ONCE &&
    (match it.max_executions with
     | none => true
     | some m => it.execution_count < m)

/-- `ScheduledItem.mark_completed` with `datetime.now()` passed as `now`. -/
def mark_completed (it : ScheduledItem) (now : DT) : ScheduledItem :=
  let it := { it with last_executed_at := some now,
                      execution_count := it.execution_count + 1 }
  if it.shouldRecur then
    { it with
        next_execution :=
          some (computeNext it.scheduled_time it.frequency it.execution_count now),
        status := PENDING }
  else
    { it with status := COMPLETED, next_execution := none }

/-- `ScheduledItem.mark_failed(error)` with `datetime.now()` passed as
`now` (the source calls it three times within the method; the claims do
not distinguish those sub-second instants). -/
def mark_failed (it : ScheduledItem) (error : Option String) (now : DT) :
    ScheduledItem :=
  let msg := error.getD "Execution failed"
  let it := { it with last_executed_at := some now,
                      retry_count := it.retry_count + 1,
                      last_error := some msg,
                      errors := it.errors ++ [(now, msg)] }
  if it.retry_count < it.max_retries then
    { it with
        next_execution := some (now.addMinutes (5 * 3 ^ (it.retry_count - 1))),
        status := PENDING }
  else
    { it with status := FAILED, next_execution := none }

/-- `ScheduledItem.can_retry`. -/
def can_retry (it : ScheduledItem) : Bool :=
  it.status != COMPLETED && it.status != CANCELLED &&
    it.retry_count < it.max_retries

/-- `ScheduledItem.retry` with `datetime.now()` passed as `now`. -/
def retry (it : ScheduledItem) (now : DT) : Except String ScheduledItem :=
  if !it.can_retry then
    .error "This scheduled item cannot be retried"
  else
    .ok { it with status := PENDING,
                  next_execution :=
                    some (now.addMinutes (5 * 2 ^ it.retry_count)) }

end ScheduledItem

/-- Outcome of resolving and publishing one target in `execute`:
the lookup returned nothing, or `publish()` returned normally, or
`publish()` (or the lookup machinery) raised with a message. -/
inductive PublishOutcome where
  | notFound
  | ok
  | err (msg : String)
deriving DecidableEq, Repr

/-- The collaborators `execute` consults: lookup-and-publish per target
kind, keyed by target id. -/
structure PubEnv where
  blog : String → PublishOutcome
  social : String → PublishOutcome

namespace ScheduledItem

/-- `ScheduledItem.execute` with `datetime.now()` passed as `now` and the
publish collaborators as `env`; returns the updated item with the boolean
the method returns.  Exceptions inside the `try` are routed to
`mark_failed` with the exception's message, exactly as the source's
`except Exception` does. -/
def execute (it : ScheduledItem) (env : PubEnv) (now : DT) :
    ScheduledItem × Bool :=
  let execution_time := it.next_execution.getD it.scheduled_time
  if it.status ≠ PENDING ∨ now.lt execution_time then
    (it, false)
  else
    match it.blog_post_id with
    | some bid =>
        match env.blog bid with
        | .notFound =>
            (it.mark_failed
              (some ("Blog post with ID " ++ bid ++ " not found")) now, false)
        | .ok => (it.mark_completed now, true)
        | .err m => (it.mark_failed (some m) now, false)
    | none =>
        match it.social_post_id with
        | some sid =>
            match env.social sid with
            | .notFound =>
                (it.mark_failed
                  (some ("Social post with ID " ++ sid ++ " not found")) now, false)
            | .ok => (it.mark_completed now, true)
            | .err m => (it.mark_failed (some m) now, false)
        | none =>
            (it.mark_completed now, true)

/-- The row predicate of `get_due_items`: `status == PENDING AND
(next_execution <= now OR (next_execution IS NULL AND scheduled_time <=
now))` — under SQL three-valued logic the first disjunct is NULL (not
satisfied) when `next_execution` is NULL. -/
def isDue (it : ScheduledItem) (now : DT) : Bool :=
  it.status == PENDING &&
    (match it.next_execution with
     | some t => t.le now
     | none => it.scheduled_time.le now)

/-- `ScheduledItem.get_due_items` over an explicit table of rows. -/
def get_due_items (items : List ScheduledItem) (now : DT) :
    List ScheduledItem :=
  items.filter (fun it => it.isDue now)

end ScheduledItem

/-- Exactly one of the two target references is set (the invariant the
constructor enforces). -/
def exactlyOneTarget (it : ScheduledItem) : Bool :=
  it.blog_post_id.isSome ^^ it.social_post_id.isSome

/-- The single publish attempt of `execute` succeeds: the item's (unique)
target resolves and its `publish()` returns normally. -/
def publishSucceeds (it : ScheduledItem) (env : PubEnv) : Bool :=
  match it.blog_post_id with
  | some bid => env.blog bid == PublishOutcome.ok
  | none =>
      match it.social_post_id with
      | some sid => env.social sid == PublishOutcome.ok
      | none => false

/-- `next_execution` is null exactly on the terminal statuses — the
invariant stated in the spec. -/
def nextExecNullIffTerminal (it : ScheduledItem) : Prop :=
  it.next_execution = none ↔
    (it.status = COMPLETED ∨ it.status = FAILED ∨ it.status = CANCELLED)

/-- A pending once-off blog schedule used to instantiate the theorems:
`retry_count = 0`, `max_retries = 3`. -/
def c2wItem : ScheduledItem :=
  { id := "c2", scheduled_time := ⟨2025, 6, 1, 12, 0⟩, frequency := ONCE,
    status := PENDING, last_executed_at := none,
    next_execution := some ⟨2025, 6, 1, 12, 0⟩, execution_count := 0,
    max_executions := none, last_error := none, retry_count := 0,
    max_retries := 3, errors := [], blog_post_id := some "b1",
    social_post_id := none }

/-- The same schedule after two recorded failures (`retry_count = 2`). -/
def c2wItem3 : ScheduledItem := { c2wItem with retry_count := 2 }

/-- A concrete clock instant for the witnesses. -/
def c2wNow : DT := ⟨2025, 6, 1, 12, 30⟩

/-- C2.  For a PENDING item, `mark_failed` increments `retry_count`; while
the incremented count is below `max_retries` it keeps the item PENDING
with `next_execution = now + 5 * 3^(retry_count - 1)` minutes (counted
after the increment); once the incremented count reaches `max_retries` it
sets status FAILED and clears `next_execution`. -/
theorem mark_failed_backoff_spec (it : ScheduledItem) (err : Option String)
    (now : DT) (_hp : it.status = PENDING) :
    (it.mark_failed err now).retry_count = it.retry_count + 1 ∧
    (it.retry_count + 1 < it.max_retries →
      (it.mark_failed err now).status = PENDING ∧
      (it.mark_failed err now).next_execution =
        some (now.addMinutes (5 * 3 ^ (it.retry_count + 1 - 1)))) ∧
    (it.max_retries ≤ it.retry_count + 1 →
      (it.mark_failed err now).status = FAILED ∧
      (it.mark_failed err now).next_execution = none) := by
  unfold ScheduledItem.mark_failed
  dsimp only
  split_ifs with h
  · exact ⟨rfl, fun _ => ⟨rfl, rfl⟩, fun hh => absurd hh (by omega)⟩
  · exact ⟨rfl, fun hh => absurd hh (by omega), fun _ => ⟨rfl, rfl⟩⟩

/-- Witness for C2: an item with `retry_count = 0`, `max_retries = 3`,
first failure lands 5 minutes after `now` and stays PENDING; the theorem
applied a second and third time yields 15 minutes and then FAILED. -/
theorem mark_failed_backoff_spec_witness :
    ((c2wItem.mark_failed none c2wNow).retry_count = 1 ∧
     (c2wItem.mark_failed none c2wNow).status = PENDING ∧
     (c2wItem.mark_failed none c2wNow).next_execution =
       some (c2wNow.addMinutes 5)) ∧
    ((c2wItem3.mark_failed none c2wNow).retry_count = 3 ∧
     (c2wItem3.mark_failed none c2wNow).status = FAILED ∧
     (c2wItem3.mark_failed none c2wNow).next_execution = none) := by
  have h1 := mark_failed_backoff_spec c2wItem none c2wNow rfl
  have h3 := mark_failed_backoff_spec c2wItem3 none c2wNow rfl
  refine ⟨⟨h1.1, (h1.2.1 (by decide)).1, ?_⟩, h3.1, h3.2.2 (by decide)⟩
  have := (h1.2.1 (by decide)).2
  simpa using this

/-- C7.  `retry` raises exactly when the item cannot be retried (status
COMPLETED or CANCELLED, or `retry_count` has reached `max_retries`), and
otherwise resets the status to PENDING and sets `next_execution` to
`now + 5 * 2^retry_count` minutes using the current, un-incremented
`retry_count`; in the pure model raising returns no item, so nothing is
mutated on the error path. -/
theorem retry_spec (it : ScheduledItem) (now : DT) :
    ((it.status = COMPLETED ∨ it.status = CANCELLED ∨
        it.max_retries ≤ it.retry_count) →
      it.retry now = .error "This scheduled item cannot be retried") ∧
    ((it.status ≠ COMPLETED ∧ it.status ≠ CANCELLED ∧
        it.retry_count < it.max_retries) →
      it.retry now =
        .ok { it with
                status := PENDING,
                next_execution :=
                  some (now.addMinutes (5 * 2 ^ it.retry_count)) }) := by
  constructor
  · intro h
    have hc : it.can_retry = false := by
      unfold ScheduledItem.can_retry
      rcases h with h | h | h
      · simp [h]
      · simp [h]
      · simp [Nat.not_lt.mpr h]
    unfold ScheduledItem.retry
    rw [hc]
    simp
  · intro ⟨h1, h2, h3⟩
    have hc : it.can_retry = true := by
      unfold ScheduledItem.can_retry
      simp [h1, h2, h3]
    unfold ScheduledItem.retry
    rw [hc]
    simp

/-- Witness for C7: a FAILED-eligible pending item with `retry_count = 0`
retries to PENDING with a 5-minute backoff, and the exhausted variant
(`retry_count = 3 = max_retries`) raises. -/
theorem retry_spec_witness :
    c2wItem.retry c2wNow =
      .ok { c2wItem with
              status := PENDING,
              next_execution := some (c2wNow.addMinutes (5 * 2 ^ 0)) } ∧
    ({ c2wItem with retry_count := 3 } : ScheduledItem).retry c2wNow =
      .error "This scheduled item cannot be retried" := by
  refine ⟨(retry_spec c2wItem c2wNow).2 (by decide), ?_⟩
  exact (retry_spec { c2wItem with retry_count := 3 } c2wNow).1 (by decide)

/-- A PENDING row whose `next_execution` is one minute before `c4Now`. -/
def c4Past : ScheduledItem :=
  { c2wItem with id := "past", next_execution := some ⟨2025, 6, 15, 11, 59⟩ }

/-- A PENDING row whose `next_execution` is one minute after `c4Now`. -/
def c4Future : ScheduledItem :=
  { c2wItem with id := "future", next_execution := some ⟨2025, 6, 15, 12, 1⟩ }

/-- A CANCELLED row whose `scheduled_time` is years in the past. -/
def c4Cancelled : ScheduledItem :=
  { c2wItem with id := "cancelled", status := CANCELLED,
                 scheduled_time := ⟨2020, 1, 1, 0, 0⟩, next_execution := none }

/-- The clock instant for the concrete due-selection checks. -/
def c4Now : DT := ⟨2025, 6, 15, 12, 0⟩

/-- C4.  `get_due_items` returns exactly the PENDING rows whose
`next_execution` is set and ≤ now, or whose `next_execution` is null with
`scheduled_time` ≤ now; concretely, a PENDING item due one minute ago is
selected, one due in a minute is not, and a CANCELLED item is never
selected however old its `scheduled_time`. -/
theorem get_due_items_spec :
    (∀ (items : List ScheduledItem) (now : DT) (it : ScheduledItem),
        it ∈ ScheduledItem.get_due_items items now ↔
          it ∈ items ∧ it.status = PENDING ∧
            ((∃ t, it.next_execution = some t ∧ DT.le t now = true) ∨
             (it.next_execution = none ∧
                DT.le it.scheduled_time now = true))) ∧
    c4Past ∈ ScheduledItem.get_due_items [c4Past, c4Future, c4Cancelled] c4Now ∧
    c4Future ∉ ScheduledItem.get_due_items [c4Past, c4Future, c4Cancelled] c4Now ∧
    c4Cancelled ∉
      ScheduledItem.get_due_items [c4Past, c4Future, c4Cancelled] c4Now := by
  refine ⟨?_, by decide, by decide, by decide⟩
  intro items now it
  simp only [ScheduledItem.get_due_items, List.mem_filter, ScheduledItem.isDue,
    Bool.and_eq_true, beq_iff_eq]
  cases h : it.next_execution <;> simp [h]

/-- The C1 schedule: anchored 2025-01-31T12:00, MONTHLY, `max_executions
= 5` (the record `__init__` builds for those arguments). -/
def c1Item : ScheduledItem :=
  { id := "c1", scheduled_time := ⟨2025, 1, 31, 12, 0⟩, frequency := MONTHLY,
    status := PENDING, last_executed_at := none,
    next_execution := some ⟨2025, 1, 31, 12, 0⟩, execution_count := 0,
    max_executions := some 5, last_error := none, retry_count := 0,
    max_retries := 3, errors := [], blog_post_id := some "b1",
    social_post_id := none }

/-- The C1 schedule after its `k`-th completion observed at clock `n`,
for `k ≤ 4`: `next_execution` holds the clamped anchor day in month
`1 + k`. -/
def c1After (k : Nat) (d : DT) (n : DT) : ScheduledItem :=
  { c1Item with last_executed_at := some n, execution_count := k,
                next_execution := some d, status := PENDING }

/-- C1.  Starting from the 2025-01-31T12:00 MONTHLY anchor with
`max_executions = 5`, successive `mark_completed` calls — each made while
the clock has not yet passed the computed next occurrence — produce
`next_execution` 2025-02-28T12:00, then 2025-03-31T12:00, then
2025-04-30T12:00, then 2025-05-31T12:00 (the 31st clamps to each target
month's own length, re-derived per month), and the 5th call sets status
COMPLETED with `next_execution` cleared. -/
theorem monthly_recurrence_clamp_chain (n1 n2 n3 n4 n5 : DT)
    (h1 : DT.le ⟨2025, 2, 28, 12, 0⟩ n1 = false)
    (h2 : DT.le ⟨2025, 3, 31, 12, 0⟩ n2 = false)
    (h3 : DT.le ⟨2025, 4, 30, 12, 0⟩ n3 = false)
    (h4 : DT.le ⟨2025, 5, 31, 12, 0⟩ n4 = false) :
    (c1Item.mark_completed n1).next_execution = some ⟨2025, 2, 28, 12, 0⟩ ∧
    (c1Item.mark_completed n1).status = PENDING ∧
    ((c1Item.mark_completed n1).mark_completed n2).next_execution =
      some ⟨2025, 3, 31, 12, 0⟩ ∧
    (((c1Item.mark_completed n1).mark_completed n2).mark_completed
        n3).next_execution = some ⟨2025, 4, 30, 12, 0⟩ ∧
    ((((c1Item.mark_completed n1).mark_completed n2).mark_completed
        n3).mark_completed n4).next_execution = some ⟨2025, 5, 31, 12, 0⟩ ∧
    (((((c1Item.mark_completed n1).mark_completed n2).mark_completed
        n3).mark_completed n4).mark_completed n5).status = COMPLETED ∧
    (((((c1Item.mark_completed n1).mark_completed n2).mark_completed
        n3).mark_completed n4).mark_completed n5).next_execution = none := by
  have s1 : c1Item.mark_completed n1 = c1After 1 ⟨2025, 2, 28, 12, 0⟩ n1 := by
    simp only [ScheduledItem.mark_completed, ScheduledItem.shouldRecur,
      computeNext, c1Item, c1After]
    norm_num
    rw [show monthCandidate ⟨2025, 1, 31, 12, 0⟩ 2025 2 = ⟨2025, 2, 28, 12, 0⟩
      from by decide]
    simp [h1]
  have s2 : (c1After 1 ⟨2025, 2, 28, 12, 0⟩ n1).mark_completed n2 =
      c1After 2 ⟨2025, 3, 31, 12, 0⟩ n2 := by
    simp only [ScheduledItem.mark_completed, ScheduledItem.shouldRecur,
      computeNext, c1Item, c1After]
    norm_num
    rw [show monthCandidate ⟨2025, 1, 31, 12, 0⟩ 2025 3 = ⟨2025, 3, 31, 12, 0⟩
      from by decide]
    simp [h2]
  have s3 : (c1After 2 ⟨2025, 3, 31, 12, 0⟩ n2).mark_completed n3 =
      c1After 3 ⟨2025, 4, 30, 12, 0⟩ n3 := by
    simp only [ScheduledItem.mark_completed, ScheduledItem.shouldRecur,
      computeNext, c1Item, c1After]
    norm_num
    rw [show monthCandidate ⟨2025, 1, 31, 12, 0⟩ 2025 4 = ⟨2025, 4, 30, 12, 0⟩
      from by decide]
    simp [h3]
  have s4 : (c1After 3 ⟨2025, 4, 30, 12, 0⟩ n3).mark_completed n4 =
      c1After 4 ⟨2025, 5, 31, 12, 0⟩ n4 := by
    simp only [ScheduledItem.mark_completed, ScheduledItem.shouldRecur,
      computeNext, c1Item, c1After]
    norm_num
    rw [show monthCandidate ⟨2025, 1, 31, 12, 0⟩ 2025 5 = ⟨2025, 5, 31, 12, 0⟩
      from by decide]
    simp [h4]
  have s5 : ∀ d n, (c1After 4 d n).mark_completed n5 =
      { c1After 4 d n with last_executed_at := some n5, execution_count := 5,
                           status := COMPLETED, next_execution := none } := by
    intro d n
    simp [ScheduledItem.mark_completed, ScheduledItem.shouldRecur, c1After,
      c1Item]
  rw [s1, s2, s3, s4, s5]
  exact ⟨rfl, rfl, rfl, rfl, rfl, rfl, rfl⟩

/-- Witness for C1: the chain evaluated with every call made at
2025-02-01T00:00, a clock before each computed occurrence. -/
theorem monthly_recurrence_clamp_chain_witness :
    (c1Item.mark_completed ⟨2025, 2, 1, 0, 0⟩).next_execution =
      some ⟨2025, 2, 28, 12, 0⟩ ∧
    (c1Item.mark_completed ⟨2025, 2, 1, 0, 0⟩).status = PENDING ∧
    ((c1Item.mark_completed ⟨2025, 2, 1, 0, 0⟩).mark_completed
        ⟨2025, 2, 1, 0, 0⟩).next_execution = some ⟨2025, 3, 31, 12, 0⟩ ∧
    (((c1Item.mark_completed ⟨2025, 2, 1, 0, 0⟩).mark_completed
        ⟨2025, 2, 1, 0, 0⟩).mark_completed ⟨2025, 2, 1, 0, 0⟩).next_execution =
      some ⟨2025, 4, 30, 12, 0⟩ ∧
    ((((c1Item.mark_completed ⟨2025, 2, 1, 0, 0⟩).mark_completed
        ⟨2025, 2, 1, 0, 0⟩).mark_completed ⟨2025, 2, 1, 0, 0⟩).mark_completed
        ⟨2025, 2, 1, 0, 0⟩).next_execution = some ⟨2025, 5, 31, 12, 0⟩ ∧
    (((((c1Item.mark_completed ⟨2025, 2, 1, 0, 0⟩).mark_completed
        ⟨2025, 2, 1, 0, 0⟩).mark_completed ⟨2025, 2, 1, 0, 0⟩).mark_completed
        ⟨2025, 2, 1, 0, 0⟩).mark_completed ⟨2025, 2, 1, 0, 0⟩).status =
      COMPLETED ∧
    (((((c1Item.mark_completed ⟨2025, 2, 1, 0, 0⟩).mark_completed
        ⟨2025, 2, 1, 0, 0⟩).mark_completed ⟨2025, 2, 1, 0, 0⟩).mark_completed
        ⟨2025, 2, 1, 0, 0⟩).mark_completed ⟨2025, 2, 1, 0, 0⟩).next_execution =
      none :=
  monthly_recurrence_clamp_chain ⟨2025, 2, 1, 0, 0⟩ ⟨2025, 2, 1, 0, 0⟩
    ⟨2025, 2, 1, 0, 0⟩ ⟨2025, 2, 1, 0, 0⟩ ⟨2025, 2, 1, 0, 0⟩
    (by decide) (by decide) (by decide) (by decide)

/-- C3.  `execute` returns `(item, false)` — mutating nothing — whenever
the status is not PENDING or the clock is strictly before the effective
due time (`next_execution`, falling back to `scheduled_time`); otherwise
it performs the single publish attempt: success runs the completion path
and returns true, while a missing target or an exception from `publish()`
is swallowed into `mark_failed` (with the error's message) and `execute`
returns false instead of raising. -/
theorem execute_contract (it : ScheduledItem) (env : PubEnv) (now : DT)
    (hx : exactlyOneTarget it = true) :
    ((it.status ≠ PENDING ∨
        DT.lt now (it.next_execution.getD it.scheduled_time) = true) →
      it.execute env now = (it, false)) ∧
    (it.status = PENDING →
      DT.lt now (it.next_execution.getD it.scheduled_time) = false →
      (publishSucceeds it env = true →
        it.execute env now = (it.mark_completed now, true)) ∧
      (publishSucceeds it env = false →
        ∃ msg, it.execute env now = (it.mark_failed (some msg) now, false))) := by
  constructor
  · intro h
    simp only [ScheduledItem.execute]
    rw [if_pos h]
  · intro hp hd
    have hcond : ¬(it.status ≠ PENDING ∨
        DT.lt now (it.next_execution.getD it.scheduled_time) = true) := by
      simp [hp, hd]
    simp only [ScheduledItem.execute]
    rw [if_neg hcond]
    cases hb : it.blog_post_id with
    | some bid =>
      cases ho : env.blog bid with
      | ok => exact ⟨fun _ => by simp [ho],
          fun hs => by simp [publishSucceeds, hb, ho] at hs⟩
      | notFound =>
        refine ⟨fun hs => ?_,
          fun _ => ⟨"Blog post with ID " ++ bid ++ " not found", by simp [ho]⟩⟩
        simp [publishSucceeds, hb, ho] at hs
      | err m =>
        refine ⟨fun hs => ?_, fun _ => ⟨m, by simp [ho]⟩⟩
        simp [publishSucceeds, hb, ho] at hs
    | none =>
      cases hsoc : it.social_post_id with
      | some sid =>
        cases ho : env.social sid with
        | ok => exact ⟨fun _ => by simp [hsoc, ho],
            fun hs => by simp [publishSucceeds, hb, hsoc, ho] at hs⟩
        | notFound =>
          refine ⟨fun hs => ?_,
            fun _ => ⟨"Social post with ID " ++ sid ++ " not found",
              by simp [hsoc, ho]⟩⟩
          simp [publishSucceeds, hb, hsoc, ho] at hs
        | err m =>
          refine ⟨fun hs => ?_, fun _ => ⟨m, by simp [hsoc, ho]⟩⟩
          simp [publishSucceeds, hb, hsoc, ho] at hs
      | none => simp [exactlyOneTarget, hb, hsoc] at hx

/-- A publish environment where every blog target publishes successfully
and every social target is missing. -/
def c3wEnv : PubEnv :=
  { blog := fun _ => PublishOutcome.ok
    social := fun _ => PublishOutcome.notFound }

/-- Witness for C3: the pending blog item is not yet due at noon on its
scheduled day minus a minute (no-op, returns false unchanged), and once
due it completes and returns true. -/
theorem execute_contract_witness :
    c2wItem.execute c3wEnv ⟨2025, 6, 1, 11, 59⟩ = (c2wItem, false) ∧
    c2wItem.execute c3wEnv ⟨2025, 6, 1, 12, 0⟩ =
      (c2wItem.mark_completed ⟨2025, 6, 1, 12, 0⟩, true) := by
  constructor
  · exact (execute_contract c2wItem c3wEnv ⟨2025, 6, 1, 11, 59⟩
      (by decide)).1 (Or.inr (by decide))
  · exact ((execute_contract c2wItem c3wEnv ⟨2025, 6, 1, 12, 0⟩
      (by decide)).2 rfl (by decide)).1 (by decide)

/-- The record that `__init__` + `save` produce when the caller passes
`status=COMPLETED` at construction: a terminal status paired with a
non-null `next_execution`. -/
def c5cexItem : ScheduledItem :=
  { id := "c5", scheduled_time := ⟨2025, 6, 1, 0, 0⟩, frequency := ONCE,
    status := COMPLETED, last_executed_at := none,
    next_execution := some ⟨2025, 6, 1, 0, 0⟩, execution_count := 0,
    max_executions := none, last_error := none, retry_count := 0,
    max_retries := 3, errors := [], blog_post_id := some "b1",
    social_post_id := none }

/-- Counterexample to C5 as stated: construction accepts an explicit
`status=COMPLETED` argument yet unconditionally sets `next_execution =
scheduled_time`, so an item reachable by construction alone has status
COMPLETED with a non-null `next_execution`. -/
theorem next_exec_invariant_cex :
    ScheduledItem.create "c5" ⟨2025, 6, 1, 0, 0⟩ (some "b1") none ONCE
        COMPLETED none 3 ⟨2025, 1, 1, 0, 0⟩ = .ok c5cexItem ∧
    c5cexItem.status = COMPLETED ∧
    c5cexItem.next_execution = some ⟨2025, 6, 1, 0, 0⟩ ∧
    ¬ nextExecNullIffTerminal c5cexItem := by
  refine ⟨rfl, rfl, rfl, ?_⟩
  intro h
  have := h.mpr (Or.inl rfl)
  simp [c5cexItem] at this

/-- C5 amended.  The invariant `next_execution = null ↔ status ∈
{COMPLETED, FAILED, CANCELLED}` holds after construction with status
PENDING and is (re)established by every lifecycle operation — `cancel`,
`mark_completed`, `mark_failed`, and a successful `retry` — from any
prior state; construction with a terminal status (and `update`, which
assigns fields unchecked) can violate it. -/
theorem next_exec_invariant_amended :
    (∀ sid st (b s : Option String) f me mr (it : ScheduledItem),
        ScheduledItem.init sid st b s f PENDING me mr = .ok it →
        nextExecNullIffTerminal it) ∧
    (∀ it : ScheduledItem, nextExecNullIffTerminal it.cancel) ∧
    (∀ (it : ScheduledItem) (now : DT),
        nextExecNullIffTerminal (it.mark_completed now)) ∧
    (∀ (it : ScheduledItem) (e : Option String) (now : DT),
        nextExecNullIffTerminal (it.mark_failed e now)) ∧
    (∀ (it it' : ScheduledItem) (now : DT), it.retry now = .ok it' →
        nextExecNullIffTerminal it') := by
  refine ⟨?_, ?_, ?_, ?_, ?_⟩
  · intro sid st b s f me mr it h
    unfold ScheduledItem.init at h
    split_ifs at h
    injection h with h2
    subst h2
    simp [nextExecNullIffTerminal]
  · intro it
    simp [ScheduledItem.cancel, nextExecNullIffTerminal]
  · intro it now
    unfold ScheduledItem.mark_completed
    dsimp only
    split_ifs <;> simp [nextExecNullIffTerminal]
  · intro it e now
    unfold ScheduledItem.mark_failed
    dsimp only
    split_ifs <;> simp [nextExecNullIffTerminal]
  · intro it it' now h
    unfold ScheduledItem.retry at h
    split_ifs at h
    injection h with h2
    subst h2
    simp [nextExecNullIffTerminal]

/-- Witness for the amended C5: the invariant on a freshly constructed
PENDING item and on its cancellation. -/
theorem next_exec_invariant_amended_witness :
    nextExecNullIffTerminal c2wItem ∧ nextExecNullIffTerminal c2wItem.cancel :=
  ⟨next_exec_invariant_amended.1 "c2" ⟨2025, 6, 1, 12, 0⟩ (some "b1") none
      ONCE none 3 c2wItem rfl,
   next_exec_invariant_amended.2.1 c2wItem⟩

/-- Counterexample to C6 as stated: the blog-targeted item (reachable by
construction) accepts `update(social_post_id="s1")` — `update` assigns any
attribute it recognises with no mutual-exclusion check — leaving both
target references non-null, and no error is raised. -/
theorem target_xor_cex :
    ScheduledItem.create "c2" ⟨2025, 6, 1, 12, 0⟩ (some "b1") none ONCE
        PENDING none 3 ⟨2025, 1, 1, 0, 0⟩ = .ok c2wItem ∧
    exactlyOneTarget c2wItem = true ∧
    (c2wItem.update { social_post_id := some (some "s1") }).blog_post_id =
      some "b1" ∧
    (c2wItem.update { social_post_id := some (some "s1") }).social_post_id =
      some "s1" ∧
    exactlyOneTarget
      (c2wItem.update { social_post_id := some (some "s1") }) = false := by
  refine ⟨rfl, rfl, rfl, rfl, rfl⟩

/-- C6 amended.  Construction enforces the rule: `__init__` rejects a call
supplying neither reference and a call supplying both, and every item it
returns has exactly one reference set; `update`, however, assigns
recognised attributes unchecked, so the invariant is not re-enforced on
mutation (see the counterexample). -/
theorem target_xor_amended :
    ∀ sid st (b s : Option String) f stat me mr,
      (b = none ∧ s = none →
        ScheduledItem.init sid st b s f stat me mr =
          .error "Either blog_post_id or social_post_id must be provided") ∧
      (b ≠ none ∧ s ≠ none →
        ScheduledItem.init sid st b s f stat me mr =
          .error
            "Cannot schedule both a blog post and a social post with the same schedule") ∧
      (∀ it, ScheduledItem.init sid st b s f stat me mr = .ok it →
        exactlyOneTarget it = true) := by
  intro sid st b s f stat me mr
  refine ⟨?_, ?_, ?_⟩
  · intro h
    unfold ScheduledItem.init
    rw [if_pos h]
  · intro h
    unfold ScheduledItem.init
    rw [if_neg (fun hc => h.1 hc.1), if_pos h]
  · intro it h
    unfold ScheduledItem.init at h
    split_ifs at h with h1 h2
    push_neg at h1 h2
    injection h with h3
    subst h3
    cases hb : b with
    | none => cases hs : s with
      | none => exact absurd (h1 (by simp [hb])) (by simp [hs])
      | some v => simp [exactlyOneTarget, hb, hs]
    | some v =>
      cases hs : s with
      | none => simp [exactlyOneTarget, hb, hs]
      | some w => exact absurd (h2 (by simp [hb])) (by simp [hs])

/-- Witness for the amended C6: the no-reference call errors, and the
freshly constructed blog item carries exactly one reference. -/
theorem target_xor_amended_witness :
    ScheduledItem.init "w6" ⟨2025, 7, 1, 0, 0⟩ none none ONCE PENDING none 3 =
      .error "Either blog_post_id or social_post_id must be provided" ∧
    exactlyOneTarget c2wItem = true :=
  ⟨(target_xor_amended "w6" ⟨2025, 7, 1, 0, 0⟩ none none ONCE PENDING none
      3).1 ⟨rfl, rfl⟩,
   (target_xor_amended "c2" ⟨2025, 6, 1, 12, 0⟩ (some "b1") none ONCE PENDING
      none 3).2.2 c2wItem rfl⟩

/-- Counterexample to C8 as stated: the once-off item completed at its due
time has status COMPLETED, yet `cancel` — which assigns CANCELLED with no
status guard — moves it to CANCELLED. -/
theorem terminal_status_cex :
    (c2wItem.mark_completed ⟨2025, 6, 1, 12, 0⟩).status = COMPLETED ∧
    ((c2wItem.mark_completed ⟨2025, 6, 1, 12, 0⟩).cancel).status =
      CANCELLED := by
  refine ⟨rfl, rfl⟩

/-- A completed once-off schedule used by the amended-C8 witness. -/
def c8wItem : ScheduledItem :=
  { c2wItem with status := COMPLETED, next_execution := none,
                 execution_count := 1 }

/-- C8 amended.  COMPLETED and CANCELLED are terminal with respect to
`execute` (which returns `(item, false)` without touching any field) and
`retry` (which raises); but `cancel`, `mark_completed` and `mark_failed`
carry no status guard, so they can move a COMPLETED or CANCELLED item to
another status (see the counterexample). -/
theorem terminal_status_amended (it : ScheduledItem) (env : PubEnv) (now : DT)
    (h : it.status = COMPLETED ∨ it.status = CANCELLED) :
    it.execute env now = (it, false) ∧
    it.retry now = .error "This scheduled item cannot be retried" := by
  have hne : it.status ≠ PENDING := by rcases h with h | h <;> simp [h]
  constructor
  · simp only [ScheduledItem.execute]
    rw [if_pos (Or.inl hne)]
  · have hc : it.can_retry = false := by
      unfold ScheduledItem.can_retry
      rcases h with h | h <;> simp [h]
    unfold ScheduledItem.retry
    rw [hc]
    simp

/-- Witness for the amended C8: the completed item is inert under
`execute` and `retry` rejects it. -/
theorem terminal_status_amended_witness :
    c8wItem.execute c3wEnv ⟨2025, 6, 2, 12, 0⟩ = (c8wItem, false) ∧
    c8wItem.retry ⟨2025, 6, 2, 12, 0⟩ =
      .error "This scheduled item cannot be retried" :=
  terminal_status_amended c8wItem c3wEnv ⟨2025, 6, 2, 12, 0⟩ (Or.inl rfl)

/-- C9.  Creation (`__init__` followed by `save`) fails exactly when the
target references are missing or conflicting or `scheduled_time` is not
strictly in the future; on failure no item is returned (nothing is
persisted).  `update`, by contrast, applies a new `scheduled_time`
unconditionally — it takes no clock at all — so no in-the-future
constraint is re-checked on mutation: any timestamp, however old, is
accepted. -/
theorem creation_validation_spec :
    ∀ sid st (b s : Option String) f stat me mr (now : DT),
      ((∃ e, ScheduledItem.create sid st b s f stat me mr now = .error e) ↔
        ((b = none ∧ s = none) ∨ (b ≠ none ∧ s ≠ none) ∨
          DT.le st now = true)) ∧
      (∀ (it : ScheduledItem) (t : DT),
        (it.update { scheduled_time := some t }).scheduled_time = t) := by
  intro sid st b s f stat me mr now
  constructor
  · unfold ScheduledItem.create ScheduledItem.init ScheduledItem.save
    split_ifs with h1 h2
    · simp [h1]
    · simp [h2]
    · dsimp only
      split_ifs with h3
      · simp [h3]
      · simp [h3]
        tauto
  · intro it t
    simp only [ScheduledItem.update]
    split_ifs <;> rfl

/-- Counterexample to C10 as stated: `update` applies a `status` keyword
before the `scheduled_time` handling, so on an item whose status is
COMPLETED at the time of the call, `update(status=PENDING,
scheduled_time=T)` still sets `next_execution = T` — the PENDING test
reads the freshly assigned status, not the status at call time. -/
theorem update_scheduled_time_cex :
    c8wItem.status = COMPLETED ∧
    (c8wItem.update
        { status := some PENDING,
          scheduled_time := some ⟨2025, 8, 1, 9, 0⟩ }).next_execution =
      some ⟨2025, 8, 1, 9, 0⟩ := by
  refine ⟨rfl, rfl⟩

/-- C10 amended.  When `update` receives a new `scheduled_time` (and no
explicit `next_execution` keyword), `scheduled_time` is always assigned,
and `next_execution` is set to the new `scheduled_time` exactly when the
status resulting from any `status` keyword of the same call — the
pre-call status when none is passed — is PENDING; otherwise
`next_execution` is left unchanged. -/
theorem update_scheduled_time_amended (it : ScheduledItem) (a : UpdateArgs)
    (t : DT) (hst : a.scheduled_time = some t)
    (hne : a.next_execution = none) :
    (it.update a).scheduled_time = t ∧
    (a.status.getD it.status = PENDING →
      (it.update a).next_execution = some t) ∧
    (a.status.getD it.status ≠ PENDING →
      (it.update a).next_execution = it.next_execution) := by
  obtain ⟨af, ast, atime, ane, ab, aso, arc, amr, ame⟩ := a
  simp only at hst hne
  subst hst
  subst hne
  simp only [ScheduledItem.update]
  cases af <;> cases ast <;> cases ab <;> cases aso <;> cases arc <;>
    cases amr <;> cases ame <;>
      (dsimp only; split_ifs with h <;> simp_all)

/-- Witness for the amended C10: updating only `scheduled_time` on a
PENDING item moves both `scheduled_time` and `next_execution` to the new
timestamp. -/
theorem update_scheduled_time_amended_witness :
    (c2wItem.update
        { scheduled_time := some ⟨2025, 8, 1, 9, 0⟩ }).scheduled_time =
      ⟨2025, 8, 1, 9, 0⟩ ∧
    (c2wItem.update
        { scheduled_time := some ⟨2025, 8, 1, 9, 0⟩ }).next_execution =
      some ⟨2025, 8, 1, 9, 0⟩ := by
  have h := update_scheduled_time_amended c2wItem
    { scheduled_time := some ⟨2025, 8, 1, 9, 0⟩ } ⟨2025, 8, 1, 9, 0⟩ rfl rfl
  exact ⟨h.1, h.2.1 rfl⟩
